import Mathlib

/-!
Shallow embedding of `src/Data/make_data.py` (weather-station data utility).

The Python module has three functions:
* `scrape_weather_stations` — paginated fetch of a station catalog;
* `closest_weather_station` — nearest eligible station to a point/date;
* `weather_data` — daily observations for the nearest station.

Dates are embedded as `Int` day stamps (comparison is all the code needs),
coordinates and distances as `Rat`, and the geodesic distance computation of
`geopy` is abstracted as a parameter function: the selection logic of the
source is independent of the numeric formula.
-/

namespace MakeData

/-- A weather-station record after post-processing (`pd.to_datetime` applied to
the four date fields, coordinates rescaled to degrees).  Field names follow the
columns used by the source. -/
structure Station where
  STN_ID : Int
  STATION_NAME : String
  CLIMATE_IDENTIFIER : String
  LATITUDE : Rat
  LONGITUDE : Rat
  FIRST_DATE : Int
  LAST_DATE : Int
  DLY_FIRST_DATE : Int
  DLY_LAST_DATE : Int
  deriving Repr, DecidableEq

/-- Errors the Python code can raise in `closest_weather_station`.
`emptyArgmin` is the `ValueError` pandas raises for `Series.idxmin` on an empty
series (the code path hit when no station passes the date filter);
`ilocOutOfRange` is an `IndexError` from `.iloc`; `noEligibleStation` is the
distinct named error the spec asks implementers to introduce — no code path of
the source produces it. -/
inductive PandasError where
  | emptyArgmin
  | ilocOutOfRange
  | noEligibleStation
  | keyError
  | insertError
  deriving Repr, DecidableEq

/-- The date filter of `closest_weather_station`:
`weather_stations.query("FIRST_DATE < @date_ and LAST_DATE > @date_")`
followed by `reset_index(drop=True)` (which in the list embedding is the
identity). -/
def eligibleStations (date_ : Int) (weather_stations : List Station) : List Station :=
  weather_stations.filter (fun s => decide (s.FIRST_DATE < date_) && decide (s.LAST_DATE > date_))

/-- `Series.idxmin` on a series with positional labels `0, 1, …`: the label of
the first occurrence of the minimum, paired with the minimum itself; `none` on
the empty series. -/
def idxminPair : List Rat → Option (Nat × Rat)
  | [] => none
  | x :: xs =>
    match idxminPair xs with
    | none => some (0, x)
    | some (j, m) => if x ≤ m then some (0, x) else some (j + 1, m)

/-- Embedding of `closest_weather_station(latitude, longitude, date_,
weather_stations)`.  `dist lat lon slat slon` abstracts
`distance.distance((latitude, longitude), (LATITUDE, LONGITUDE)).km`.
The source filters by date, assigns the pairwise distances as a column,
takes `idxmin` of that column and returns the `.iloc` row as a dict
(station fields plus `DISTANCE_WEATHER_STATION_KM`, here the pair). -/
def closest_weather_station (dist : Rat → Rat → Rat → Rat → Rat)
    (latitude longitude : Rat) (date_ : Int) (weather_stations : List Station) :
    Except PandasError (Station × Rat) :=
  let ws := eligibleStations date_ weather_stations
  let distances := ws.map (fun s => dist latitude longitude s.LATITUDE s.LONGITUDE)
  match idxminPair distances with
  | none => .error .emptyArgmin
  | some (i, m) =>
    match ws[i]? with
    | none => .error .ilocOutOfRange
    | some s => .ok (s, m)

/-- A raw station record as decoded from a page of
`/collections/climate-stations/items`: coordinates still in the scaled integer
representation, dates still strings. -/
structure RawStation where
  STN_ID : Int
  STATION_NAME : String
  CLIMATE_IDENTIFIER : String
  LATITUDE : Int
  LONGITUDE : Int
  FIRST_DATE : String
  LAST_DATE : String
  DLY_FIRST_DATE : String
  DLY_LAST_DATE : String
  deriving Repr, DecidableEq

/-- The `assign` post-processing step of `scrape_weather_stations`: longitude
and latitude divided by `10e6` (the Python float literal `10e6`, i.e.
`10 * 10^6`), and the four date fields parsed by `pd.to_datetime`, abstracted
as the parameter `parse`. -/
def postProcess (parse : String → Int) (r : RawStation) : Station where
  STN_ID := r.STN_ID
  STATION_NAME := r.STATION_NAME
  CLIMATE_IDENTIFIER := r.CLIMATE_IDENTIFIER
  LATITUDE := (r.LATITUDE : Rat) / (10 * 10 ^ 6)
  LONGITUDE := (r.LONGITUDE : Rat) / (10 * 10 ^ 6)
  FIRST_DATE := parse r.FIRST_DATE
  LAST_DATE := parse r.LAST_DATE
  DLY_FIRST_DATE := parse r.DLY_FIRST_DATE
  DLY_LAST_DATE := parse r.DLY_LAST_DATE

/-- A failure of one page request: `requests.get` raising (transport) or
`response.json()` raising (decode).  Both propagate out of the fetch. -/
inductive FetchError where
  | transport
  | decode
  deriving Repr, DecidableEq

/-- The `while True` pagination loop of `scrape_weather_stations` for one
province.  `server s` is the decoded page for query parameter
`startindex = s` (or the error raised by the request/decode); `startindex`
begins at 1 and advances by 500 after every full page of exactly 500 records.
`fuel` bounds the number of iterations (the Python loop has no such bound;
every theorem below supplies enough fuel), `acc` is the accumulated catalog and
`count` the number of requests issued so far; the result carries the final
catalog and total request count. -/
def scrapeLoop (server : Nat → Except FetchError (List RawStation)) :
    Nat → Nat → List RawStation → Nat → Option (Except FetchError (List RawStation × Nat))
  | 0, _, _, _ => none
  | fuel + 1, startindex, acc, count =>
    match server startindex with
    | .error e => some (.error e)
    | .ok rows =>
      if rows.length = 500 then
        scrapeLoop server fuel (startindex + 500) (acc ++ rows) (count + 1)
      else
        some (.ok (acc ++ rows, count + 1))

/-- The `for province in provinces` loop: one pagination loop per province,
accumulating rows and request counts across provinces (`pd.concat`). -/
def provLoop (server : String → Nat → Except FetchError (List RawStation)) :
    List String → Nat → List RawStation → Nat → Option (Except FetchError (List RawStation × Nat))
  | [], _, acc, count => some (.ok (acc, count))
  | p :: ps, fuel, acc, count =>
    match scrapeLoop (server p) fuel 1 acc count with
    | none => none
    | some (.error e) => some (.error e)
    | some (.ok (acc2, count2)) => provLoop server ps fuel acc2 count2

/-- The argument type `Union[str, List[str]]` of `scrape_weather_stations`. -/
inductive ProvArg where
  | single (p : String)
  | many (ps : List String)
  deriving Repr, DecidableEq

/-- Embedding of `scrape_weather_stations(provinces)`.  A single province name
is wrapped into a one-element list; the paginated pages are concatenated in
request order (`reset_index(drop=True)` is the identity on the list model) and
post-processed by `postProcess`.  The result also reports the total number of
page requests issued, which the theorems below observe. -/
def scrape_weather_stations (parse : String → Int)
    (server : String → Nat → Except FetchError (List RawStation))
    (provinces : ProvArg) (fuel : Nat) :
    Option (Except FetchError (List Station × Nat)) :=
  let ps := match provinces with
    | .single p => [p]
    | .many l => l
  match provLoop server ps fuel [] 0 with
  | none => none
  | some (.error e) => some (.error e)
  | some (.ok (raw, count)) => some (.ok (raw.map (postProcess parse), count))

/-- A cell of a pandas `DataFrame` in the observation fetcher. -/
inductive Value where
  | vStr (s : String)
  | vInt (n : Int)
  | vRat (q : Rat)
  deriving Repr, DecidableEq

/-- A pandas `DataFrame`: a list of column names and a list of rows, each row
holding one `Value` per column. -/
structure Frame where
  header : List String
  rows : List (List Value)
  deriving Repr, DecidableEq

/-- `DataFrame.drop(labels, axis=1)`: removes the listed columns; pandas raises
`KeyError` when a label is absent, modelled as `none`. -/
def dropCols (labels : List String) (f : Frame) : Option Frame :=
  if labels.all (fun c => f.header.contains c) then
    some
      { header := f.header.filter (fun c => !labels.contains c)
        rows := f.rows.map (fun r =>
          ((f.header.zip r).filter (fun p => !labels.contains p.1)).map (fun p => p.2)) }
  else none

/-- `DataFrame.insert(loc, column, value)` with a scalar value: inserts a new
column at position `loc`, broadcasting the scalar to every row; pandas raises
for `loc > len(columns)` and for a duplicate column name, modelled as `none`. -/
def insertCol (loc : Nat) (column : String) (value : Value) (f : Frame) : Option Frame :=
  if loc ≤ f.header.length ∧ ¬f.header.contains column then
    some
      { header := f.header.insertIdx loc column
        rows := f.rows.map (fun r => r.insertIdx loc value) }
  else none

/-- The dict `closest_station` returned by `closest_weather_station`: every
station column plus the assigned `DISTANCE_WEATHER_STATION_KM`. -/
def stationDict (s : Station) (km : Rat) : List (String × Value) :=
  [("STN_ID", .vInt s.STN_ID),
   ("STATION_NAME", .vStr s.STATION_NAME),
   ("CLIMATE_IDENTIFIER", .vStr s.CLIMATE_IDENTIFIER),
   ("LATITUDE", .vRat s.LATITUDE),
   ("LONGITUDE", .vRat s.LONGITUDE),
   ("FIRST_DATE", .vInt s.FIRST_DATE),
   ("LAST_DATE", .vInt s.LAST_DATE),
   ("DLY_FIRST_DATE", .vInt s.DLY_FIRST_DATE),
   ("DLY_LAST_DATE", .vInt s.DLY_LAST_DATE),
   ("DISTANCE_WEATHER_STATION_KM", .vRat km)]

/-- Column selection `df[[c1, …, ck]]` on a single-row frame built from a dict:
looks each requested column up in the dict (pandas raises `KeyError` on a
missing one, modelled as `none`). -/
def projectRow (cols : List String) (dict : List (String × Value)) : Option (List Value) :=
  cols.mapM (fun c => (dict.find? (fun p => p.1 == c)).map (fun p => p.2))

/-- The four fallback columns of `weather_data`, in source order. -/
def fallbackCols : List String :=
  ["STATION_NAME", "STN_ID", "CLIMATE_IDENTIFIER", "DISTANCE_WEATHER_STATION_KM"]

/-- The six columns `weather_data` drops from a non-empty observation
response, in source order. -/
def droppedCols : List String :=
  ["LOCAL_DATE", "LOCAL_DAY", "LOCAL_MONTH", "LOCAL_YEAR", "ID", "PROVINCE_CODE"]

/-- Embedding of the reshaping part of `weather_data` (lines 140–172 of the
source), given the already-resolved closest station `cs` with its distance `km`
and the decoded observation response `resp` for the query date.  Empty
response: a single-row frame projected to the four fallback columns.
Otherwise: drop the six redundant columns, insert
`DISTANCE_WEATHER_STATION_KM` at position 1, then insert `STN_ID` at
position 1. -/
def weather_data (cs : Station) (km : Rat) (resp : Frame) :
    Except PandasError Frame :=
  if resp.rows.isEmpty then
    match projectRow fallbackCols (stationDict cs km) with
    | none => .error .keyError
    | some row => .ok { header := fallbackCols, rows := [row] }
  else
    match dropCols droppedCols resp with
    | none => .error .keyError
    | some w =>
      match insertCol 1 "DISTANCE_WEATHER_STATION_KM" (.vRat km) w with
      | none => .error .insertError
      | some w1 =>
        match insertCol 1 "STN_ID" (.vInt cs.STN_ID) w1 with
        | none => .error .insertError
        | some w2 => .ok w2

/-- State-passing rendering of `closest_weather_station`: the caller's catalog
object is threaded explicitly, and every pandas call the body makes —
`query`, `reset_index(drop=True)`, `apply`, `assign`, `Series.idxmin`,
`.iloc[...].to_dict()` — returns a fresh object without mutating its receiver
(the one in-place call in the source, `sort_values(..., inplace=True)`, is
commented out), so the body only rebinds its local variable and the caller's
object is returned as it came in. -/
def closest_weather_station_state (dist : Rat → Rat → Rat → Rat → Rat)
    (latitude longitude : Rat) (date_ : Int) (catalog : List Station) :
    List Station × Except PandasError (Station × Rat) :=
  let ws := eligibleStations date_ catalog
  let distances := ws.map (fun s => dist latitude longitude s.LATITUDE s.LONGITUDE)
  let result :=
    match idxminPair distances with
    | none => Except.error PandasError.emptyArgmin
    | some (i, m) =>
      match ws[i]? with
      | none => Except.error PandasError.ilocOutOfRange
      | some s => Except.ok (s, m)
  (catalog, result)

/-- A province's pagination terminates successfully against `server` within
`fuel` iterations: some number `n` of full 500-record pages (requests at
`startindex = 1 + 500·j`, `j < n`) is followed by a short or empty page at
`startindex = 1 + 500·n`, every request returning without error. -/
def paginationTerminates (server : Nat → Except FetchError (List RawStation))
    (fuel : Nat) : Prop :=
  ∃ n, n < fuel ∧
    (∀ j, j < n → ∃ page, server (1 + 500 * j) = .ok page ∧ page.length = 500) ∧
    (∃ page, server (1 + 500 * n) = .ok page ∧ page.length ≠ 500)

/-- The column list left after `weather_data` drops the six redundant columns
(the header component of `dropCols droppedCols resp`). -/
def keptHeader (resp : Frame) : List String :=
  resp.header.filter (fun c => !droppedCols.contains c)

/-- One row after `weather_data` drops the six redundant columns (the row
transformation of `dropCols droppedCols resp`). -/
def dropRow (resp : Frame) (r : List Value) : List Value :=
  ((resp.header.zip r).filter (fun p => !droppedCols.contains p.1)).map (fun p => p.2)

/-- C2: a station survives the resolver's date filter exactly when it is in
the catalog and `FIRST_DATE < date_` and `LAST_DATE > date_`, both strict; in
particular a station whose `FIRST_DATE` or `LAST_DATE` equals the query date
fails the corresponding strict inequality and is excluded. -/
theorem eligible_iff_strictly_contains (date_ : Int) (weather_stations : List Station)
    (s : Station) :
    s ∈ eligibleStations date_ weather_stations ↔
      s ∈ weather_stations ∧ s.FIRST_DATE < date_ ∧ s.LAST_DATE > date_ := by
  simp [eligibleStations, List.mem_filter, and_assoc]

/-- C7: post-processing divides the raw longitude and latitude by exactly
10,000,000 (the Python literal `10e6`) and sends the four date fields through
the date parser. -/
theorem postProcess_rescale_and_parse (parse : String → Int) (r : RawStation) :
    (postProcess parse r).LONGITUDE = (r.LONGITUDE : Rat) / 10000000 ∧
    (postProcess parse r).LATITUDE = (r.LATITUDE : Rat) / 10000000 ∧
    (postProcess parse r).FIRST_DATE = parse r.FIRST_DATE ∧
    (postProcess parse r).LAST_DATE = parse r.LAST_DATE ∧
    (postProcess parse r).DLY_FIRST_DATE = parse r.DLY_FIRST_DATE ∧
    (postProcess parse r).DLY_LAST_DATE = parse r.DLY_LAST_DATE := by
  refine ⟨?_, ?_, rfl, rfl, rfl, rfl⟩ <;>
    · show _ / ((10 : Rat) * 10 ^ 6) = _ / (10000000 : Rat)
      norm_num

/-- C9: a province passed as a bare string yields the same result as the same
province passed as a one-element list. -/
theorem scrape_single_eq_singleton_list (parse : String → Int)
    (server : String → Nat → Except FetchError (List RawStation))
    (p : String) (fuel : Nat) :
    scrape_weather_stations parse server (.single p) fuel =
      scrape_weather_stations parse server (.many [p]) fuel := rfl

/-- C10: the resolver leaves the caller's catalog untouched: the state-passing
rendering returns the catalog exactly as it came in, alongside the same result
as the pure function. -/
theorem closest_weather_station_preserves_catalog (dist : Rat → Rat → Rat → Rat → Rat)
    (latitude longitude : Rat) (date_ : Int) (catalog : List Station) :
    (closest_weather_station_state dist latitude longitude date_ catalog).1 = catalog ∧
    (closest_weather_station_state dist latitude longitude date_ catalog).2 =
      closest_weather_station dist latitude longitude date_ catalog :=
  ⟨rfl, rfl⟩

/-- C4 (amended): when no station passes the date filter, the resolver fails
with the error of taking `idxmin` of an empty sequence — it does not return a
station, but the failure is the propagated pandas fault, not a distinct
"no eligible station" error. -/
theorem closest_weather_station_empty_fails (dist : Rat → Rat → Rat → Rat → Rat)
    (latitude longitude : Rat) (date_ : Int) (weather_stations : List Station)
    (h : eligibleStations date_ weather_stations = []) :
    closest_weather_station dist latitude longitude date_ weather_stations =
      .error .emptyArgmin := by
  simp [closest_weather_station, h, idxminPair]

/-- Witness for `closest_weather_station_empty_fails` at the empty catalog. -/
theorem closest_weather_station_empty_fails_witness :
    closest_weather_station (fun _ _ _ _ => 0) 0 0 0 [] = .error .emptyArgmin :=
  closest_weather_station_empty_fails (fun _ _ _ _ => 0) 0 0 0 [] rfl

/-- C4 counterexample: on a catalog with no eligible station the resolver's
failure is the argmin-of-empty-sequence fault, which is not the distinct
"no eligible station" error the claim asserts. -/
theorem closest_weather_station_empty_not_distinct_error :
    closest_weather_station (fun _ _ _ _ => 0) 0 0 0 [] = .error .emptyArgmin ∧
    (Except.error PandasError.emptyArgmin : Except PandasError (Station × Rat)) ≠
      Except.error PandasError.noEligibleStation := by
  refine ⟨rfl, fun h => ?_⟩
  exact absurd (Except.error.inj h) (by decide)

/-- C5: when the observation endpoint returns zero rows, `weather_data`
returns a single-row frame with exactly the four fallback columns
`STATION_NAME`, `STN_ID`, `CLIMATE_IDENTIFIER`,
`DISTANCE_WEATHER_STATION_KM`, in that order, carrying the closest station's
values. -/
theorem weather_data_empty_fallback (cs : Station) (km : Rat) (resp : Frame)
    (h : resp.rows = []) :
    weather_data cs km resp =
      .ok { header := ["STATION_NAME", "STN_ID", "CLIMATE_IDENTIFIER",
                       "DISTANCE_WEATHER_STATION_KM"],
            rows := [[.vStr cs.STATION_NAME, .vInt cs.STN_ID,
                      .vStr cs.CLIMATE_IDENTIFIER, .vRat km]] } := by
  simp only [weather_data, h, List.isEmpty_nil, if_true]
  rfl

/-- Witness for `weather_data_empty_fallback` at a concrete station and
empty response. -/
theorem weather_data_empty_fallback_witness :
    weather_data ⟨7, "OTTAWA", "6105976", 45, -75, 0, 100, 0, 100⟩ 3
        { header := ["MEAN_TEMPERATURE"], rows := [] } =
      .ok { header := ["STATION_NAME", "STN_ID", "CLIMATE_IDENTIFIER",
                       "DISTANCE_WEATHER_STATION_KM"],
            rows := [[.vStr "OTTAWA", .vInt 7, .vStr "6105976", .vRat 3]] } :=
  weather_data_empty_fallback ⟨7, "OTTAWA", "6105976", 45, -75, 0, 100, 0, 100⟩ 3
    { header := ["MEAN_TEMPERATURE"], rows := [] } rfl

theorem idxminPair_eq_none_iff (l : List Rat) : idxminPair l = none ↔ l = [] := by
  cases l with
  | nil => simp [idxminPair]
  | cons a t =>
    simp only [idxminPair]
    cases ht : idxminPair t with
    | none => simp
    | some jm =>
      obtain ⟨j, m⟩ := jm
      dsimp only
      by_cases hx : a ≤ m <;> simp [hx]

theorem idxminPair_spec (l : List Rat) : ∀ (j : Nat) (m : Rat),
    idxminPair l = some (j, m) →
    l[j]? = some m ∧
    (∀ (i : Nat) (x : Rat), l[i]? = some x → m ≤ x) ∧
    (∀ (i : Nat) (x : Rat), i < j → l[i]? = some x → m < x) := by
  induction l with
  | nil => intro j m h; simp [idxminPair] at h
  | cons a t ih =>
    intro j m h
    simp only [idxminPair] at h
    cases ht : idxminPair t with
    | none =>
      rw [ht] at h
      have hte : t = [] := (idxminPair_eq_none_iff t).mp ht
      subst hte
      dsimp only at h
      have hj : 0 = j ∧ a = m := by simpa using h
      obtain ⟨rfl, rfl⟩ := hj
      refine ⟨List.getElem?_cons_zero, ?_, ?_⟩
      · intro i x hix
        cases i with
        | zero =>
          rw [List.getElem?_cons_zero] at hix
          exact le_of_eq (Option.some.inj hix)
        | succ i => simp at hix
      · intro i x hi
        omega
    | some jm =>
      obtain ⟨j', m'⟩ := jm
      rw [ht] at h
      dsimp only at h
      obtain ⟨h1, h2, h3⟩ := ih j' m' ht
      by_cases hx : a ≤ m'
      · rw [if_pos hx] at h
        have hj : 0 = j ∧ a = m := by simpa using h
        obtain ⟨rfl, rfl⟩ := hj
        refine ⟨List.getElem?_cons_zero, ?_, ?_⟩
        · intro i x hix
          cases i with
          | zero =>
            rw [List.getElem?_cons_zero] at hix
            exact le_of_eq (Option.some.inj hix)
          | succ i =>
            rw [List.getElem?_cons_succ] at hix
            exact le_trans hx (h2 i x hix)
        · intro i x hi
          omega
      · rw [if_neg hx] at h
        have hj : j' + 1 = j ∧ m' = m := by simpa using h
        obtain ⟨rfl, rfl⟩ := hj
        push_neg at hx
        refine ⟨?_, ?_, ?_⟩
        · rw [List.getElem?_cons_succ]
          exact h1
        · intro i x hix
          cases i with
          | zero =>
            rw [List.getElem?_cons_zero] at hix
            exact le_of_lt (lt_of_lt_of_le hx (le_of_eq (Option.some.inj hix)))
          | succ i =>
            rw [List.getElem?_cons_succ] at hix
            exact h2 i x hix
        · intro i x hi hix
          cases i with
          | zero =>
            rw [List.getElem?_cons_zero] at hix
            exact lt_of_lt_of_le hx (le_of_eq (Option.some.inj hix))
          | succ i =>
            rw [List.getElem?_cons_succ] at hix
            exact h3 i x (by omega) hix

/-- C1: whenever at least one station passes the date filter, the resolver
succeeds and returns an eligible station (with its computed distance) whose
distance is minimal among all eligible stations, and every eligible station
appearing earlier has a strictly larger distance — the stable minimum in
catalog order (the filtered list is an order-preserving sublist of the
catalog). -/
theorem closest_weather_station_stable_min (dist : Rat → Rat → Rat → Rat → Rat)
    (latitude longitude : Rat) (date_ : Int) (weather_stations : List Station)
    (hne : eligibleStations date_ weather_stations ≠ []) :
    ∃ (s : Station) (km : Rat) (i : Nat),
      closest_weather_station dist latitude longitude date_ weather_stations =
        .ok (s, km) ∧
      (eligibleStations date_ weather_stations)[i]? = some s ∧
      km = dist latitude longitude s.LATITUDE s.LONGITUDE ∧
      (∀ t ∈ eligibleStations date_ weather_stations,
        km ≤ dist latitude longitude t.LATITUDE t.LONGITUDE) ∧
      (∀ (j : Nat) (t : Station), j < i →
        (eligibleStations date_ weather_stations)[j]? = some t →
        km < dist latitude longitude t.LATITUDE t.LONGITUDE) ∧
      (eligibleStations date_ weather_stations).Sublist weather_stations := by
  cases hidx : idxminPair ((eligibleStations date_ weather_stations).map
      (fun s => dist latitude longitude s.LATITUDE s.LONGITUDE)) with
  | none =>
    have hmap := (idxminPair_eq_none_iff _).mp hidx
    rw [List.map_eq_nil_iff] at hmap
    exact absurd hmap hne
  | some im =>
    obtain ⟨i, m⟩ := im
    obtain ⟨h1, h2, h3⟩ := idxminPair_spec _ i m hidx
    rw [List.getElem?_map] at h1
    obtain ⟨s, hs, hfs⟩ := Option.map_eq_some'.mp h1
    refine ⟨s, m, i, ?_, hs, hfs.symm, ?_, ?_, List.filter_sublist _⟩
    · simp only [closest_weather_station]
      rw [hidx]
      dsimp only
      rw [hs]
    · intro t ht
      obtain ⟨n, hn⟩ := List.mem_iff_getElem?.mp ht
      refine h2 n _ ?_
      rw [List.getElem?_map, hn]
      rfl
    · intro j t hj hgt
      refine h3 j _ hj ?_
      rw [List.getElem?_map, hgt]
      rfl

/-- Witness for `closest_weather_station_stable_min` on a one-station catalog
whose date range strictly contains the query date. -/
theorem closest_weather_station_stable_min_witness :
    ∃ (s : Station) (km : Rat) (i : Nat),
      closest_weather_station (fun _ _ _ _ => 0) 0 0 5
          [⟨1, "A", "CA1", 0, 0, 0, 10, 0, 10⟩] = .ok (s, km) ∧
      (eligibleStations 5 [⟨1, "A", "CA1", 0, 0, 0, 10, 0, 10⟩])[i]? = some s ∧
      km = (0 : Rat) ∧
      (∀ t ∈ eligibleStations 5 [⟨1, "A", "CA1", 0, 0, 0, 10, 0, 10⟩], km ≤ (0 : Rat)) ∧
      (∀ (j : Nat) (t : Station), j < i →
        (eligibleStations 5 [⟨1, "A", "CA1", 0, 0, 0, 10, 0, 10⟩])[j]? = some t →
        km < (0 : Rat)) ∧
      (eligibleStations 5 [⟨1, "A", "CA1", 0, 0, 0, 10, 0, 10⟩]).Sublist
        [⟨1, "A", "CA1", 0, 0, 0, 10, 0, 10⟩] :=
  closest_weather_station_stable_min (fun _ _ _ _ => 0) 0 0 5
    [⟨1, "A", "CA1", 0, 0, 0, 10, 0, 10⟩] (by decide)

theorem scrapeLoop_error_propagates (server : Nat → Except FetchError (List RawStation)) :
    ∀ (k fuel s : Nat) (acc : List RawStation) (count : Nat) (e : FetchError),
      (∀ j, j < k → ∃ page, server (s + 500 * j) = .ok page ∧ page.length = 500) →
      server (s + 500 * k) = .error e → k < fuel →
      scrapeLoop server fuel s acc count = some (.error e) := by
  intro k
  induction k with
  | zero =>
    intro fuel s acc count e hok herr hf
    cases fuel with
    | zero => exact absurd hf (by omega)
    | succ fuel =>
      rw [show s + 500 * 0 = s by omega] at herr
      rw [scrapeLoop, herr]
  | succ k ih =>
    intro fuel s acc count e hok herr hf
    cases fuel with
    | zero => exact absurd hf (by omega)
    | succ fuel =>
      obtain ⟨page, hp, hlen⟩ := hok 0 (by omega)
      rw [show s + 500 * 0 = s by omega] at hp
      rw [scrapeLoop, hp]
      dsimp only
      rw [if_pos hlen]
      refine ih fuel (s + 500) (acc ++ page) (count + 1) e ?_ ?_ (by omega)
      · intro j hj
        obtain ⟨q, hq, hql⟩ := hok (j + 1) (by omega)
        refine ⟨q, ?_, hql⟩
        rw [show s + 500 + 500 * j = s + 500 * (j + 1) by ring]
        exact hq
      · rw [show s + 500 + 500 * k = s + 500 * (k + 1) by ring]
        exact herr

theorem scrapeLoop_ok_of_terminates (server : Nat → Except FetchError (List RawStation)) :
    ∀ (n fuel s : Nat) (acc : List RawStation) (count : Nat),
      (∀ j, j < n → ∃ page, server (s + 500 * j) = .ok page ∧ page.length = 500) →
      (∃ page, server (s + 500 * n) = .ok page ∧ page.length ≠ 500) →
      n < fuel →
      ∃ acc2 count2, scrapeLoop server fuel s acc count = some (.ok (acc2, count2)) := by
  intro n
  induction n with
  | zero =>
    intro fuel s acc count hok hshort hf
    cases fuel with
    | zero => exact absurd hf (by omega)
    | succ fuel =>
      obtain ⟨page, hp, hlen⟩ := hshort
      rw [show s + 500 * 0 = s by omega] at hp
      refine ⟨acc ++ page, count + 1, ?_⟩
      rw [scrapeLoop, hp]
      dsimp only
      rw [if_neg hlen]
  | succ n ih =>
    intro fuel s acc count hok hshort hf
    cases fuel with
    | zero => exact absurd hf (by omega)
    | succ fuel =>
      obtain ⟨page, hp, hlen⟩ := hok 0 (by omega)
      rw [show s + 500 * 0 = s by omega] at hp
      have hok' : ∀ j, j < n →
          ∃ page2, server (s + 500 + 500 * j) = .ok page2 ∧ page2.length = 500 := by
        intro j hj
        obtain ⟨q, hq, hql⟩ := hok (j + 1) (by omega)
        refine ⟨q, ?_, hql⟩
        rw [show s + 500 + 500 * j = s + 500 * (j + 1) by ring]
        exact hq
      have hshort' : ∃ page2,
          server (s + 500 + 500 * n) = .ok page2 ∧ page2.length ≠ 500 := by
        obtain ⟨q, hq, hql⟩ := hshort
        refine ⟨q, ?_, hql⟩
        rw [show s + 500 + 500 * n = s + 500 * (n + 1) by ring]
        exact hq
      obtain ⟨acc2, count2, h2⟩ :=
        ih fuel (s + 500) (acc ++ page) (count + 1) hok' hshort' (by omega)
      refine ⟨acc2, count2, ?_⟩
      rw [scrapeLoop, hp]
      dsimp only
      rw [if_pos hlen]
      exact h2

theorem provLoop_error_after_ok_front
    (server : String → Nat → Except FetchError (List RawStation))
    (p : String) (ps : List String) (fuel : Nat) (e : FetchError)
    (hperr : ∀ acc count, scrapeLoop (server p) fuel 1 acc count = some (.error e)) :
    ∀ (qs : List String) (acc : List RawStation) (count : Nat),
      (∀ q ∈ qs, paginationTerminates (server q) fuel) →
      provLoop server (qs ++ p :: ps) fuel acc count = some (.error e) := by
  intro qs
  induction qs with
  | nil =>
    intro acc count hqs
    rw [List.nil_append, provLoop, hperr]
  | cons q qs ih =>
    intro acc count hqs
    obtain ⟨n, hn, hfull, hshort⟩ := hqs q (List.mem_cons_self q qs)
    obtain ⟨acc2, count2, hq⟩ :=
      scrapeLoop_ok_of_terminates (server q) n fuel 1 acc count hfull hshort hn
    rw [List.cons_append, provLoop, hq]
    exact ih acc2 count2 (fun r hr => hqs r (List.mem_cons_of_mem q hr))

/-- C8: in any fetch where some page request fails, the whole fetch
evaluates to that error and the caller never receives a partial catalog of
the pages fetched before the failure.  The failing province `p` may sit at any
position: after provinces `qs` whose pagination already completed
successfully (any earlier failure is this theorem for that earlier province),
and before pending provinces `ps`; `p` fails at its page request `k` after `k`
full pages.  The special case of a bare province string (`qs = ps = []`) is
the second conjunct. -/
theorem scrape_error_aborts_fetch (parse : String → Int)
    (server : String → Nat → Except FetchError (List RawStation))
    (qs : List String) (p : String) (ps : List String) (fuel k : Nat) (e : FetchError)
    (hqs : ∀ q ∈ qs, paginationTerminates (server q) fuel)
    (hok : ∀ j, j < k → ∃ page, server p (1 + 500 * j) = .ok page ∧ page.length = 500)
    (herr : server p (1 + 500 * k) = .error e) (hf : k < fuel) :
    scrape_weather_stations parse server (.many (qs ++ p :: ps)) fuel =
      some (.error e) ∧
    scrape_weather_stations parse server (.single p) fuel = some (.error e) := by
  have hperr : ∀ acc count, scrapeLoop (server p) fuel 1 acc count = some (.error e) :=
    fun acc count => scrapeLoop_error_propagates (server p) k fuel 1 acc count e hok herr hf
  constructor
  · unfold scrape_weather_stations
    dsimp only
    rw [provLoop_error_after_ok_front server p ps fuel e hperr qs [] 0 hqs]
  · unfold scrape_weather_stations
    dsimp only
    rw [provLoop, hperr]

/-- Witness for `scrape_error_aborts_fetch`: the first province paginates to
completion with one short page, the second province's very first page request
fails with a decode error while a third province is still pending. -/
theorem scrape_error_aborts_fetch_witness :
    scrape_weather_stations (fun _ => 0)
        (fun q _ => if q = "Ontario" then .error .decode else .ok [])
        (.many (["Alberta"] ++ "Ontario" :: ["Yukon"])) 1 = some (.error .decode) ∧
    scrape_weather_stations (fun _ => 0)
        (fun q _ => if q = "Ontario" then .error .decode else .ok [])
        (.single "Ontario") 1 = some (.error .decode) :=
  scrape_error_aborts_fetch (fun _ => 0)
    (fun q _ => if q = "Ontario" then .error .decode else .ok [])
    ["Alberta"] "Ontario" ["Yukon"] 1 0 .decode
    (fun q hq => by
      rcases List.mem_singleton.mp hq with rfl
      exact ⟨0, by omega, fun j hj => absurd hj (by omega), [], rfl, by decide⟩)
    (fun j hj => absurd hj (by omega)) rfl (by omega)

/-- C6: when the observation endpoint returns at least one row, `weather_data`
returns the rows with the six columns `LOCAL_DATE`, `LOCAL_DAY`,
`LOCAL_MONTH`, `LOCAL_YEAR`, `ID` and `PROVINCE_CODE` removed, and with
`STN_ID` ending up at column index 1 and `DISTANCE_WEATHER_STATION_KM`
immediately after it at index 2.  The hypotheses record the well-formedness of
a real observation response: non-empty row set, the six dropped columns
present, the two inserted columns not already present, and at least one
column surviving the drop. -/
theorem weather_data_nonempty_shape (cs : Station) (km : Rat) (resp : Frame)
    (hrows : resp.rows ≠ [])
    (hsix : ∀ c ∈ droppedCols, c ∈ resp.header)
    (hstn : "STN_ID" ∉ resp.header)
    (hdist : "DISTANCE_WEATHER_STATION_KM" ∉ resp.header)
    (hkept : 1 ≤ (keptHeader resp).length) :
    ∃ w, weather_data cs km resp = .ok w ∧
      w.header =
        ((keptHeader resp).insertIdx 1 "DISTANCE_WEATHER_STATION_KM").insertIdx 1 "STN_ID" ∧
      w.rows = resp.rows.map (fun r =>
        ((dropRow resp r).insertIdx 1 (.vRat km)).insertIdx 1 (.vInt cs.STN_ID)) ∧
      w.header[1]? = some "STN_ID" ∧
      w.header[2]? = some "DISTANCE_WEATHER_STATION_KM" ∧
      (∀ c ∈ droppedCols, c ∉ w.header) := by
  have hempty : resp.rows.isEmpty = false := by
    cases hr : resp.rows with
    | nil => exact absurd hr hrows
    | cons a t => rfl
  have hall : droppedCols.all (fun c => resp.header.contains c) = true := by
    rw [List.all_eq_true]
    intro c hc
    simpa using hsix c hc
  have hdrop : dropCols droppedCols resp =
      some { header := keptHeader resp, rows := resp.rows.map (dropRow resp) } := by
    rw [dropCols, if_pos hall]
    rfl
  have hmem1 : "DISTANCE_WEATHER_STATION_KM" ∉ keptHeader resp :=
    fun hm => hdist (List.mem_of_mem_filter hm)
  have hmem2 : "STN_ID" ∉ (keptHeader resp).insertIdx 1 "DISTANCE_WEATHER_STATION_KM" := by
    intro hm
    rcases (List.mem_insertIdx hkept).mp hm with h | h
    · exact absurd h (by decide)
    · exact hstn (List.mem_of_mem_filter h)
  have hlen1 : 1 ≤ ((keptHeader resp).insertIdx 1 "DISTANCE_WEATHER_STATION_KM").length := by
    rw [List.length_insertIdx 1 _ hkept]
    omega
  have hins1 : insertCol 1 "DISTANCE_WEATHER_STATION_KM" (.vRat km)
      { header := keptHeader resp, rows := resp.rows.map (dropRow resp) } =
      some { header := (keptHeader resp).insertIdx 1 "DISTANCE_WEATHER_STATION_KM",
             rows := (resp.rows.map (dropRow resp)).map
               (fun r => r.insertIdx 1 (.vRat km)) } := by
    rw [insertCol, if_pos ⟨hkept, by simpa using hmem1⟩]
  have hins2 : insertCol 1 "STN_ID" (.vInt cs.STN_ID)
      { header := (keptHeader resp).insertIdx 1 "DISTANCE_WEATHER_STATION_KM",
        rows := (resp.rows.map (dropRow resp)).map (fun r => r.insertIdx 1 (.vRat km)) } =
      some { header :=
               ((keptHeader resp).insertIdx 1 "DISTANCE_WEATHER_STATION_KM").insertIdx 1
                 "STN_ID",
             rows := ((resp.rows.map (dropRow resp)).map
               (fun r => r.insertIdx 1 (.vRat km))).map
                 (fun r => r.insertIdx 1 (.vInt cs.STN_ID)) } := by
    rw [insertCol, if_pos ⟨hlen1, by simpa using hmem2⟩]
  have hrun : weather_data cs km resp =
      .ok { header :=
              ((keptHeader resp).insertIdx 1 "DISTANCE_WEATHER_STATION_KM").insertIdx 1
                "STN_ID",
            rows := ((resp.rows.map (dropRow resp)).map
              (fun r => r.insertIdx 1 (.vRat km))).map
                (fun r => r.insertIdx 1 (.vInt cs.STN_ID)) } := by
    rw [weather_data, hempty]
    simp only [Bool.false_eq_true, if_false, hdrop, hins1, hins2]
  refine ⟨_, hrun, rfl, ?_, ?_, ?_, ?_⟩
  · simp [List.map_map, Function.comp]
  · obtain ⟨x, rest, hk⟩ : ∃ x rest, keptHeader resp = x :: rest := by
      cases hk : keptHeader resp with
      | nil => rw [hk] at hkept; simp at hkept
      | cons x rest => exact ⟨x, rest, rfl⟩
    rw [hk]
    simp [List.insertIdx_succ_cons, List.insertIdx_zero]
  · obtain ⟨x, rest, hk⟩ : ∃ x rest, keptHeader resp = x :: rest := by
      cases hk : keptHeader resp with
      | nil => rw [hk] at hkept; simp at hkept
      | cons x rest => exact ⟨x, rest, rfl⟩
    rw [hk]
    simp [List.insertIdx_succ_cons, List.insertIdx_zero]
  · intro c hc hcw
    rcases (List.mem_insertIdx hlen1).mp hcw with h | h
    · subst h
      exact absurd hc (by decide)
    · rcases (List.mem_insertIdx hkept).mp h with h' | h'
      · subst h'
        exact absurd hc (by decide)
      · have := (List.mem_filter.mp h').2
        simp only [Bool.not_eq_true'] at this
        have hcon : droppedCols.contains c = true := by simpa using hc
        rw [hcon] at this
        exact absurd this (by decide)

/-- Witness for `weather_data_nonempty_shape` on a one-row observation
response with the nine columns a real climate-daily record carries. -/
theorem weather_data_nonempty_shape_witness :
    ∃ w,
      weather_data ⟨7, "OTTAWA", "6105976", 45, -75, 0, 100, 0, 100⟩ 3
          { header := ["STATION_NAME", "CLIMATE_IDENTIFIER", "LOCAL_DATE", "LOCAL_DAY",
                       "LOCAL_MONTH", "LOCAL_YEAR", "ID", "PROVINCE_CODE",
                       "MEAN_TEMPERATURE"],
            rows := [[.vStr "OTTAWA", .vStr "6105976", .vStr "2020-01-02", .vInt 2,
                      .vInt 1, .vInt 2020, .vStr "6105976.2020.1.2", .vStr "ON",
                      .vRat 5]] } = .ok w ∧
      w.header =
        ((keptHeader { header := ["STATION_NAME", "CLIMATE_IDENTIFIER", "LOCAL_DATE",
                                  "LOCAL_DAY", "LOCAL_MONTH", "LOCAL_YEAR", "ID",
                                  "PROVINCE_CODE", "MEAN_TEMPERATURE"],
                       rows := [[.vStr "OTTAWA", .vStr "6105976", .vStr "2020-01-02",
                                 .vInt 2, .vInt 1, .vInt 2020,
                                 .vStr "6105976.2020.1.2", .vStr "ON",
                                 .vRat 5]] }).insertIdx 1
            "DISTANCE_WEATHER_STATION_KM").insertIdx 1 "STN_ID" ∧
      w.rows =
        [[.vStr "OTTAWA", .vStr "6105976", .vStr "2020-01-02", .vInt 2, .vInt 1,
          .vInt 2020, .vStr "6105976.2020.1.2", .vStr "ON", .vRat 5]].map (fun r =>
          ((dropRow { header := ["STATION_NAME", "CLIMATE_IDENTIFIER", "LOCAL_DATE",
                                 "LOCAL_DAY", "LOCAL_MONTH", "LOCAL_YEAR", "ID",
                                 "PROVINCE_CODE", "MEAN_TEMPERATURE"],
                      rows := [[.vStr "OTTAWA", .vStr "6105976", .vStr "2020-01-02",
                                .vInt 2, .vInt 1, .vInt 2020,
                                .vStr "6105976.2020.1.2", .vStr "ON", .vRat 5]] }
              r).insertIdx 1 (.vRat 3)).insertIdx 1 (.vInt 7)) ∧
      w.header[1]? = some "STN_ID" ∧
      w.header[2]? = some "DISTANCE_WEATHER_STATION_KM" ∧
      (∀ c ∈ droppedCols, c ∉ w.header) :=
  weather_data_nonempty_shape ⟨7, "OTTAWA", "6105976", 45, -75, 0, 100, 0, 100⟩ 3
    { header := ["STATION_NAME", "CLIMATE_IDENTIFIER", "LOCAL_DATE", "LOCAL_DAY",
                 "LOCAL_MONTH", "LOCAL_YEAR", "ID", "PROVINCE_CODE", "MEAN_TEMPERATURE"],
      rows := [[.vStr "OTTAWA", .vStr "6105976", .vStr "2020-01-02", .vInt 2, .vInt 1,
                .vInt 2020, .vStr "6105976.2020.1.2", .vStr "ON", .vRat 5]] }
    (by decide) (by decide) (by decide) (by decide) (by decide)

end MakeData
